import Mathlib

/-!
Verification of the AI Voice Detection backend (GUVI-HACKATHON).

Shallow embedding of the Python backend into Lean 4:
- `backend/utils/explainer.py`   → `VoiceExplainer` namespace
- `backend/utils/errors.py`      → `Errors` namespace
- `backend/utils/audio_processor.py` → `AudioProcessor` namespace
- `backend/model/classifier.py`  → `VoiceClassifier` namespace
- `backend/model/feature_extractor.py` → `FeatureExtractor` namespace
- `backend/utils/db.py` / `backend/utils/firebase_db.py` → `Db` / `FirebaseDb`
- `backend/main.py` (route handlers) → `MainApp` namespace

Machine floats of the source are modelled as rationals (`ℚ`); Python dicts
as association lists with first-match lookup; code that calls external
services (JWT decoding, Mongo/Firestore inserts, the pickled sklearn model)
is parameterised by the outcome of that call, while every branch written in
this repository is embedded verbatim.
-/

namespace VoiceExplainer

/-- Python `dict.get(key, default)` on an association-list model of a dict. -/
def dictGet (features : List (String × ℚ)) (key : String) (default : ℚ) : ℚ :=
  (features.lookup key).getD default

/-- `VoiceExplainer.categorize_pitch_variance` from `backend/utils/explainer.py`. -/
def categorize_pitch_variance (pitch_variance : ℚ) : String :=
  if pitch_variance < 500 then "low"
  else if pitch_variance < 2000 then "medium"
  else "high"

/-- `VoiceExplainer.categorize_spectral_smoothness` from `backend/utils/explainer.py`.
Low flatness = high smoothness. -/
def categorize_spectral_smoothness (spectral_flatness : ℚ) : String :=
  if spectral_flatness < 1/10 then "high"
  else if spectral_flatness < 3/10 then "medium"
  else "low"

/-- `VoiceExplainer.categorize_micro_variations` from `backend/utils/explainer.py`:
`variation_score = energy_variation + zcr_std * 10`. -/
def categorize_micro_variations (energy_variation : ℚ) (zcr_std : ℚ) : String :=
  let variation_score := energy_variation + zcr_std * 10
  if variation_score < 1/2 then "absent"
  else if variation_score < 3/2 then "minimal"
  else "present"

/-- `VoiceExplainer.generate_explanation` from `backend/utils/explainer.py`:
each consulted feature defaults to 0 via `features.get(name, 0)`; the result
dict has exactly the keys `pitch_variance`, `spectral_smoothness`,
`micro_variations`.  The `prediction` argument is accepted but unused, as in
the source. -/
def generate_explanation (features : List (String × ℚ)) (_prediction : String) :
    List (String × String) :=
  let pitch_category := categorize_pitch_variance (dictGet features "pitch_variance" 0)
  let spectral_category := categorize_spectral_smoothness (dictGet features "spectral_flatness_mean" 0)
  let variation_category := categorize_micro_variations
    (dictGet features "energy_variation" 0) (dictGet features "zcr_std" 0)
  [("pitch_variance", pitch_category),
   ("spectral_smoothness", spectral_category),
   ("micro_variations", variation_category)]

end VoiceExplainer

namespace VoiceExplainer

/-- Each pitch category is one of the three ladder labels. -/
lemma categorize_pitch_variance_mem (x : ℚ) :
    categorize_pitch_variance x ∈ (["low", "medium", "high"] : List String) := by
  simp only [categorize_pitch_variance]
  split_ifs <;> simp

/-- Each smoothness category is one of the three ladder labels. -/
lemma categorize_spectral_smoothness_mem (x : ℚ) :
    categorize_spectral_smoothness x ∈ (["low", "medium", "high"] : List String) := by
  simp only [categorize_spectral_smoothness]
  split_ifs <;> simp

/-- Each micro-variation category is one of the three ladder labels. -/
lemma categorize_micro_variations_mem (e z : ℚ) :
    categorize_micro_variations e z ∈ (["absent", "minimal", "present"] : List String) := by
  simp only [categorize_micro_variations]
  split_ifs <;> simp

end VoiceExplainer

/-- C1: the explanation is three independent threshold ladders
(pitch_variance: <500 "low", <2000 "medium", else "high";
spectral_flatness_mean: <0.1 "high", <0.3 "medium", else "low";
energy_variation + 10*zcr_std: <0.5 "absent", <1.5 "minimal", else "present"),
and on pitch_variance=100, spectral_flatness_mean=0.05, energy_variation=0.1,
zcr_std=0.01 the explanation is exactly
{pitch_variance: "low", spectral_smoothness: "high", micro_variations: "absent"}. -/
theorem VoiceExplainer.threshold_ladders :
    (∀ x : ℚ,
      (x < 500 → categorize_pitch_variance x = "low") ∧
      (500 ≤ x → x < 2000 → categorize_pitch_variance x = "medium") ∧
      (2000 ≤ x → categorize_pitch_variance x = "high")) ∧
    (∀ x : ℚ,
      (x < 1/10 → categorize_spectral_smoothness x = "high") ∧
      (1/10 ≤ x → x < 3/10 → categorize_spectral_smoothness x = "medium") ∧
      (3/10 ≤ x → categorize_spectral_smoothness x = "low")) ∧
    (∀ e z : ℚ,
      (e + 10 * z < 1/2 → categorize_micro_variations e z = "absent") ∧
      (1/2 ≤ e + 10 * z → e + 10 * z < 3/2 → categorize_micro_variations e z = "minimal") ∧
      (3/2 ≤ e + 10 * z → categorize_micro_variations e z = "present")) ∧
    (∀ pred : String,
      generate_explanation
        [("pitch_variance", 100), ("spectral_flatness_mean", 1/20),
         ("energy_variation", 1/10), ("zcr_std", 1/100)] pred =
      [("pitch_variance", "low"), ("spectral_smoothness", "high"),
       ("micro_variations", "absent")]) := by
  refine ⟨fun x => ⟨fun h => ?_, fun h1 h2 => ?_, fun h => ?_⟩,
    fun x => ⟨fun h => ?_, fun h1 h2 => ?_, fun h => ?_⟩,
    fun e z => ⟨fun h => ?_, fun h1 h2 => ?_, fun h => ?_⟩,
    fun pred => ?_⟩
  · simp only [categorize_pitch_variance]
    rw [if_pos h]
  · simp only [categorize_pitch_variance]
    rw [if_neg (not_lt.mpr h1), if_pos h2]
  · simp only [categorize_pitch_variance]
    rw [if_neg (not_lt.mpr (show (500:ℚ) ≤ x by linarith)),
      if_neg (not_lt.mpr (show (2000:ℚ) ≤ x by linarith))]
  · simp only [categorize_spectral_smoothness]
    rw [if_pos h]
  · simp only [categorize_spectral_smoothness]
    rw [if_neg (not_lt.mpr h1), if_pos h2]
  · simp only [categorize_spectral_smoothness]
    rw [if_neg (not_lt.mpr (show (1:ℚ)/10 ≤ x by linarith)),
      if_neg (not_lt.mpr (show (3:ℚ)/10 ≤ x by linarith))]
  · simp only [categorize_micro_variations]
    rw [if_pos (show e + z * 10 < 1/2 by linarith)]
  · simp only [categorize_micro_variations]
    rw [if_neg (not_lt.mpr (show (1:ℚ)/2 ≤ e + z * 10 by linarith)),
      if_pos (show e + z * 10 < 3/2 by linarith)]
  · simp only [categorize_micro_variations]
    rw [if_neg (not_lt.mpr (show (1:ℚ)/2 ≤ e + z * 10 by linarith)),
      if_neg (not_lt.mpr (show (3:ℚ)/2 ≤ e + z * 10 by linarith))]
  · have e1 : dictGet
        [("pitch_variance", 100), ("spectral_flatness_mean", 1/20),
         ("energy_variation", 1/10), ("zcr_std", 1/100)] "pitch_variance" 0 = 100 := rfl
    have e2 : dictGet
        [("pitch_variance", 100), ("spectral_flatness_mean", 1/20),
         ("energy_variation", 1/10), ("zcr_std", 1/100)] "spectral_flatness_mean" 0 = 1/20 := rfl
    have e3 : dictGet
        [("pitch_variance", 100), ("spectral_flatness_mean", 1/20),
         ("energy_variation", 1/10), ("zcr_std", 1/100)] "energy_variation" 0 = 1/10 := rfl
    have e4 : dictGet
        [("pitch_variance", 100), ("spectral_flatness_mean", 1/20),
         ("energy_variation", 1/10), ("zcr_std", 1/100)] "zcr_std" 0 = 1/100 := rfl
    simp only [generate_explanation, e1, e2, e3, e4]
    norm_num [categorize_pitch_variance, categorize_spectral_smoothness,
      categorize_micro_variations]

/-- C1 witness: the ladder theorem applied at the concrete inputs of the spec. -/
theorem VoiceExplainer.threshold_ladders_witness :
    VoiceExplainer.categorize_pitch_variance 100 = "low" ∧
    VoiceExplainer.categorize_spectral_smoothness (1/20) = "high" ∧
    VoiceExplainer.categorize_micro_variations (1/10) (1/100) = "absent" :=
  ⟨(VoiceExplainer.threshold_ladders.1 100).1 (by norm_num),
   (VoiceExplainer.threshold_ladders.2.1 (1/20)).1 (by norm_num),
   (VoiceExplainer.threshold_ladders.2.2.1 (1/10) (1/100)).1 (by norm_num)⟩

/-- C10: `generate_explanation` is total, returns a dict with exactly the
keys pitch_variance, spectral_smoothness, micro_variations, whose values lie
in {low, medium, high}, {low, medium, high} and {absent, minimal, present}
respectively; any of the four consulted features missing from the input is
treated as 0, and the empty features dict yields
{pitch_variance: "low", spectral_smoothness: "high", micro_variations: "absent"}. -/
theorem VoiceExplainer.generate_explanation_shape :
    ∀ (features : List (String × ℚ)) (pred : String),
      ((generate_explanation features pred).map Prod.fst =
        ["pitch_variance", "spectral_smoothness", "micro_variations"]) ∧
      (((generate_explanation features pred).lookup "pitch_variance").getD "" ∈
        (["low", "medium", "high"] : List String)) ∧
      (((generate_explanation features pred).lookup "spectral_smoothness").getD "" ∈
        (["low", "medium", "high"] : List String)) ∧
      (((generate_explanation features pred).lookup "micro_variations").getD "" ∈
        (["absent", "minimal", "present"] : List String)) ∧
      (features.lookup "pitch_variance" = none →
        (generate_explanation features pred).lookup "pitch_variance" =
          some (categorize_pitch_variance 0)) ∧
      (features.lookup "spectral_flatness_mean" = none →
        (generate_explanation features pred).lookup "spectral_smoothness" =
          some (categorize_spectral_smoothness 0)) ∧
      (features.lookup "energy_variation" = none →
        (generate_explanation features pred).lookup "micro_variations" =
          some (categorize_micro_variations 0 (dictGet features "zcr_std" 0))) ∧
      (features.lookup "zcr_std" = none →
        (generate_explanation features pred).lookup "micro_variations" =
          some (categorize_micro_variations (dictGet features "energy_variation" 0) 0)) ∧
      generate_explanation [] pred =
        [("pitch_variance", "low"), ("spectral_smoothness", "high"),
         ("micro_variations", "absent")] := by
  intro features pred
  refine ⟨rfl, ?_, ?_, ?_, fun h => ?_, fun h => ?_, fun h => ?_, fun h => ?_, ?_⟩
  · simpa [generate_explanation, List.lookup] using
      categorize_pitch_variance_mem (dictGet features "pitch_variance" 0)
  · simpa [generate_explanation, List.lookup] using
      categorize_spectral_smoothness_mem (dictGet features "spectral_flatness_mean" 0)
  · simpa [generate_explanation, List.lookup] using
      categorize_micro_variations_mem (dictGet features "energy_variation" 0)
        (dictGet features "zcr_std" 0)
  · simp [generate_explanation, List.lookup, dictGet, h]
  · simp [generate_explanation, List.lookup, dictGet, h]
  · simp [generate_explanation, List.lookup, dictGet, h]
  · simp [generate_explanation, List.lookup, dictGet, h]
  · have e0 : ∀ k : String, dictGet [] k 0 = 0 := fun k => rfl
    simp only [generate_explanation, e0]
    norm_num [categorize_pitch_variance, categorize_spectral_smoothness,
      categorize_micro_variations]

/-- C10 witness: the shape theorem applied at the empty features dict,
discharging every missing-feature hypothesis. -/
theorem VoiceExplainer.generate_explanation_shape_witness :
    (VoiceExplainer.generate_explanation [] "HUMAN").lookup "pitch_variance" =
      some (VoiceExplainer.categorize_pitch_variance 0) ∧
    (VoiceExplainer.generate_explanation [] "HUMAN").lookup "spectral_smoothness" =
      some (VoiceExplainer.categorize_spectral_smoothness 0) ∧
    (VoiceExplainer.generate_explanation [] "HUMAN").lookup "micro_variations" =
      some (VoiceExplainer.categorize_micro_variations 0
        (VoiceExplainer.dictGet [] "zcr_std" 0)) ∧
    (VoiceExplainer.generate_explanation [] "HUMAN").lookup "micro_variations" =
      some (VoiceExplainer.categorize_micro_variations
        (VoiceExplainer.dictGet [] "energy_variation" 0) 0) :=
  ⟨(VoiceExplainer.generate_explanation_shape [] "HUMAN").2.2.2.2.1 rfl,
   (VoiceExplainer.generate_explanation_shape [] "HUMAN").2.2.2.2.2.1 rfl,
   (VoiceExplainer.generate_explanation_shape [] "HUMAN").2.2.2.2.2.2.1 rfl,
   (VoiceExplainer.generate_explanation_shape [] "HUMAN").2.2.2.2.2.2.2.1 rfl⟩

namespace Errors

/-- One entry of `ERROR_MESSAGES` in `backend/utils/errors.py`. -/
structure ErrorInfo where
  message : String
  code : String
deriving DecidableEq

/-- The `ERROR_MESSAGES` registry from `backend/utils/errors.py`, verbatim. -/
def ERROR_MESSAGES : List (String × ErrorInfo) :=
  [("AUDIO_TOO_SHORT", ⟨"Audio must be at least 1 second long", "AUDIO_TOO_SHORT"⟩),
   ("AUDIO_TOO_LONG", ⟨"Audio must be less than 60 seconds long", "AUDIO_TOO_LONG"⟩),
   ("UNSUPPORTED_FORMAT", ⟨"Only MP3 format is supported", "UNSUPPORTED_FORMAT"⟩),
   ("INVALID_BASE64", ⟨"Invalid Base64 encoding", "INVALID_BASE64"⟩),
   ("DECODE_ERROR", ⟨"Failed to decode audio file", "DECODE_ERROR"⟩),
   ("PROCESSING_ERROR", ⟨"Failed to process audio", "PROCESSING_ERROR"⟩),
   ("FEATURE_EXTRACTION_ERROR", ⟨"Failed to extract audio features", "FEATURE_EXTRACTION_ERROR"⟩),
   ("PREDICTION_ERROR", ⟨"Failed to make prediction", "PREDICTION_ERROR"⟩),
   ("UNAUTHORIZED", ⟨"Invalid or missing authentication", "UNAUTHORIZED"⟩),
   ("INVALID_CREDENTIALS", ⟨"Invalid email or password", "INVALID_CREDENTIALS"⟩),
   ("USER_EXISTS", ⟨"User with this email already exists", "USER_EXISTS"⟩),
   ("USER_NOT_FOUND", ⟨"User not found", "USER_NOT_FOUND"⟩),
   ("INVALID_TOKEN", ⟨"Invalid or expired token", "INVALID_TOKEN"⟩),
   ("WEAK_PASSWORD", ⟨"Password must be at least 8 characters long", "WEAK_PASSWORD"⟩),
   ("INVALID_EMAIL", ⟨"Invalid email format", "INVALID_EMAIL"⟩)]

/-- Structured error body returned by `create_error_response`. -/
structure ErrorResponse where
  error : String
  message : String
  details : Option String
deriving DecidableEq

/-- `create_error_response` from `backend/utils/errors.py`: looks the code up
in `ERROR_MESSAGES`, falling back to an `UNKNOWN_ERROR` body; `details` is
attached only when truthy (non-empty). -/
def create_error_response (error_code : String) (details : Option String) : ErrorResponse :=
  let error_info := (ERROR_MESSAGES.lookup error_code).getD
    ⟨"An unexpected error occurred", "UNKNOWN_ERROR"⟩
  { error := error_info.code
    message := error_info.message
    details := match details with
      | some d => if d = "" then none else some d
      | none => none }

end Errors

namespace AudioProcessor

/-- `VoiceDetectionError` from `backend/utils/errors.py`: message, a
machine-readable error code, optional details. -/
structure VoiceDetectionError where
  message : String
  error_code : String
  details : Option String
deriving DecidableEq

/-- `AudioProcessor.process_base64_audio` from `backend/utils/audio_processor.py`.
The decode step (`decode_base64_to_audio`, a call into pydub/librosa) is
parameterised by its outcome: either an exception message or the loaded
sample list together with the sample rate; the silence-trim/normalize step
(`preprocess_audio`, a call into librosa) is parameterised by the function
`preprocess`.  Duration is `len(audio) / sr`; the validation branches are
embedded verbatim. -/
def process_base64_audio
    (decodeResult : Except String (List ℚ × ℕ))
    (preprocess : List ℚ → List ℚ) : Except VoiceDetectionError (List ℚ × ℕ) :=
  match decodeResult with
  | .error e => .error ⟨"Invalid audio file format", "INVALID_FORMAT", some e⟩
  | .ok (audio, sr) =>
    let duration : ℚ := (audio.length : ℚ) / (sr : ℚ)
    if duration < 1 then
      .error ⟨"Audio is too short. Minimum is 1.0 seconds.", "AUDIO_TOO_SHORT", none⟩
    else if duration > 300 then
      .error ⟨"Audio is too long. Maximum is 5 minutes.", "AUDIO_TOO_LONG", none⟩
    else
      .ok (preprocess audio, sr)

end AudioProcessor

/-- C3: for every successfully decoded clip, `process_base64_audio` fails with
error code `AUDIO_TOO_SHORT` when the decoded duration is strictly below 1.0s,
with `AUDIO_TOO_LONG` when it is strictly above 300.0s, and every duration in
[1.0, 300.0] passes the duration validation. -/
theorem AudioProcessor.duration_validation :
    (∀ (audio : List ℚ) (sr : ℕ) (pre : List ℚ → List ℚ),
      (audio.length : ℚ) / (sr : ℚ) < 1 →
      ∃ err : VoiceDetectionError,
        process_base64_audio (.ok (audio, sr)) pre = .error err ∧
        err.error_code = "AUDIO_TOO_SHORT") ∧
    (∀ (audio : List ℚ) (sr : ℕ) (pre : List ℚ → List ℚ),
      (audio.length : ℚ) / (sr : ℚ) > 300 →
      ∃ err : VoiceDetectionError,
        process_base64_audio (.ok (audio, sr)) pre = .error err ∧
        err.error_code = "AUDIO_TOO_LONG") ∧
    (∀ (audio : List ℚ) (sr : ℕ) (pre : List ℚ → List ℚ),
      1 ≤ (audio.length : ℚ) / (sr : ℚ) → (audio.length : ℚ) / (sr : ℚ) ≤ 300 →
      process_base64_audio (.ok (audio, sr)) pre = .ok (pre audio, sr)) := by
  refine ⟨fun audio sr pre h => ?_, fun audio sr pre h => ?_, fun audio sr pre h1 h2 => ?_⟩
  · refine ⟨⟨"Audio is too short. Minimum is 1.0 seconds.", "AUDIO_TOO_SHORT", none⟩, ?_, rfl⟩
    simp only [process_base64_audio]
    rw [if_pos h]
  · refine ⟨⟨"Audio is too long. Maximum is 5 minutes.", "AUDIO_TOO_LONG", none⟩, ?_, rfl⟩
    simp only [process_base64_audio]
    rw [if_neg (not_lt.mpr (by linarith)), if_pos h]
  · simp only [process_base64_audio]
    rw [if_neg (not_lt.mpr h1), if_neg (not_lt.mpr h2)]

/-- C3 witness: at a 1 Hz model rate an empty clip is rejected short, a
301-sample clip is rejected long, and a 1-sample clip passes. -/
theorem AudioProcessor.duration_validation_witness :
    (∃ err : AudioProcessor.VoiceDetectionError,
      AudioProcessor.process_base64_audio (.ok (([] : List ℚ), 1)) id =
        .error err ∧ err.error_code = "AUDIO_TOO_SHORT") ∧
    (∃ err : AudioProcessor.VoiceDetectionError,
      AudioProcessor.process_base64_audio (.ok (List.replicate 301 (0:ℚ), 1)) id =
        .error err ∧ err.error_code = "AUDIO_TOO_LONG") ∧
    AudioProcessor.process_base64_audio (.ok (([0] : List ℚ), 1)) id =
      .ok (([0] : List ℚ), 1) :=
  ⟨AudioProcessor.duration_validation.1 [] 1 id (by norm_num),
   AudioProcessor.duration_validation.2.1 (List.replicate 301 0) 1 id
      (by rw [List.length_replicate]; norm_num),
   AudioProcessor.duration_validation.2.2 [0] 1 id (by norm_num) (by norm_num)⟩

namespace AudioProcessor

/-- Outcomes of the external calls made by
`AudioProcessor.decode_base64_to_audio` (`backend/utils/audio_processor.py`):
base64 decoding, pydub MP3 decoding (`from_mp3` + channel/rate conversion),
WAV export, and the librosa load of the exported WAV. -/
structure DecodeOracle where
  b64ok : Bool
  mp3DecodeOk : Bool
  exportOk : Bool
  loadOk : Bool
deriving DecidableEq

/-- Result of a `decode_base64_to_audio` call: whether it returned normally,
and which of the two temporary files (the `.mp3` and the `.wav`) still exist
on disk afterwards. -/
structure DecodeOutcome where
  returnedOk : Bool
  mp3OnDisk : Bool
  wavOnDisk : Bool
deriving DecidableEq

/-- `AudioProcessor.decode_base64_to_audio` from
`backend/utils/audio_processor.py`, modelled as a file-state machine over the
outcomes of its external calls.  Control flow of the source: the base64 decode
happens before any temp file exists; the MP3 temp is written, then the
pydub decode runs inside a `try` whose `finally` unlinks the MP3; the WAV temp
is created before `audio.export`, and `os.unlink(tmp_wav_path)` runs only
after a successful `librosa.load` on the straight-line success path. -/
def decode_base64_to_audio (o : DecodeOracle) : DecodeOutcome :=
  if ¬ o.b64ok then ⟨false, false, false⟩
  else if ¬ o.mp3DecodeOk then ⟨false, false, false⟩
  else if ¬ o.exportOk then ⟨false, false, true⟩
  else if ¬ o.loadOk then ⟨false, false, true⟩
  else ⟨true, false, false⟩

end AudioProcessor

/-- C8 (code bug): the MP3 temp file is unlinked on every exit path (its
cleanup sits in a `finally`), and the success path removes both temp files,
but when the WAV export or the librosa load fails the exported WAV temp file
is left on disk — the claimed invariant "neither temporary file remains after
`decode_base64_to_audio` returns or raises" is violated. -/
theorem AudioProcessor.decode_wav_temp_leak :
    (∀ o : AudioProcessor.DecodeOracle,
      (AudioProcessor.decode_base64_to_audio o).mp3OnDisk = false) ∧
    (AudioProcessor.decode_base64_to_audio ⟨true, true, true, true⟩ =
      ⟨true, false, false⟩) ∧
    (AudioProcessor.decode_base64_to_audio ⟨true, true, true, false⟩ =
      ⟨false, false, true⟩) ∧
    (AudioProcessor.decode_base64_to_audio ⟨true, true, false, true⟩ =
      ⟨false, false, true⟩) := by
  refine ⟨fun o => ?_, rfl, rfl, rfl⟩
  simp only [AudioProcessor.decode_base64_to_audio]
  split_ifs <;> rfl

namespace VoiceClassifier

/-- The two loaded artifacts of `backend/model/classifier.py`: the fitted
scaler (`scaler.transform`), the fitted binary model (`model.predict`, giving
the class index of a single row) and its probability row (`predict_proba`,
giving the class-0 and class-1 probabilities). -/
structure ModelArtifacts where
  scalerTransform : List ℚ → List ℚ
  modelPredict : List ℚ → ℕ
  modelPredictProba : List ℚ → ℚ × ℚ

/-- `VoiceClassifier.predict` from `backend/model/classifier.py`: scales the
feature vector, predicts a class index, maps index 0 to "AI_GENERATED" with
the class-0 probability as confidence, and any other index to "HUMAN" with
the class-1 probability. -/
def predict (m : ModelArtifacts) (feature_vector : List ℚ) :
    String × ℚ × (ℚ × ℚ) :=
  let feature_scaled := m.scalerTransform feature_vector
  let prediction_label := m.modelPredict feature_scaled
  let probabilities := m.modelPredictProba feature_scaled
  if prediction_label = 0 then ("AI_GENERATED", probabilities.1, probabilities)
  else ("HUMAN", probabilities.2, probabilities)

end VoiceClassifier

/-- C4: `VoiceClassifier.predict` scales the vector, predicts a class index,
maps index 0 to "AI_GENERATED" and index 1 to "HUMAN", returns the predicted
own probability of the predicted class as confidence; whenever the probability row
is a valid probability pair, the returned label is in {AI_GENERATED, HUMAN}
and the confidence lies in [0, 1]. -/
theorem VoiceClassifier.predict_label_and_confidence :
    ∀ (m : VoiceClassifier.ModelArtifacts) (v : List ℚ),
      0 ≤ (m.modelPredictProba (m.scalerTransform v)).1 →
      (m.modelPredictProba (m.scalerTransform v)).1 ≤ 1 →
      0 ≤ (m.modelPredictProba (m.scalerTransform v)).2 →
      (m.modelPredictProba (m.scalerTransform v)).2 ≤ 1 →
      ((VoiceClassifier.predict m v).1 = "AI_GENERATED" ∨
        (VoiceClassifier.predict m v).1 = "HUMAN") ∧
      (0 ≤ (VoiceClassifier.predict m v).2.1 ∧ (VoiceClassifier.predict m v).2.1 ≤ 1) ∧
      (VoiceClassifier.predict m v).2.2 = m.modelPredictProba (m.scalerTransform v) ∧
      (m.modelPredict (m.scalerTransform v) = 0 →
        (VoiceClassifier.predict m v).1 = "AI_GENERATED" ∧
        (VoiceClassifier.predict m v).2.1 = (m.modelPredictProba (m.scalerTransform v)).1) ∧
      (m.modelPredict (m.scalerTransform v) = 1 →
        (VoiceClassifier.predict m v).1 = "HUMAN" ∧
        (VoiceClassifier.predict m v).2.1 = (m.modelPredictProba (m.scalerTransform v)).2) := by
  intro m v h1 h2 h3 h4
  by_cases hl : m.modelPredict (m.scalerTransform v) = 0
  · refine ⟨Or.inl ?_, ⟨?_, ?_⟩, ?_, fun _ => ⟨?_, ?_⟩, fun hl1 => absurd hl1 ?_⟩ <;>
      simp [VoiceClassifier.predict, hl] <;> assumption
  · refine ⟨Or.inr ?_, ⟨?_, ?_⟩, ?_, fun hl0 => absurd hl0 hl, fun _ => ⟨?_, ?_⟩⟩ <;>
      simp [VoiceClassifier.predict, hl] <;> assumption

/-- C4 witness: the classifier wrapper applied to a concrete model whose
probability row is (3/4, 1/4) and which predicts class 0. -/
theorem VoiceClassifier.predict_label_and_confidence_witness :
    (VoiceClassifier.predict ⟨id, fun _ => 0, fun _ => (3/4, 1/4)⟩ []).1 = "AI_GENERATED" ∧
    (VoiceClassifier.predict ⟨id, fun _ => 0, fun _ => (3/4, 1/4)⟩ []).2.1 = 3/4 :=
  (VoiceClassifier.predict_label_and_confidence ⟨id, fun _ => 0, fun _ => (3/4, 1/4)⟩ []
      (by norm_num) (by norm_num) (by norm_num) (by norm_num)).2.2.2.1 rfl

namespace FeatureExtractor

/-- The 22 scalar statistics computed by
`backend/model/feature_extractor.py`.  Each numeric value is produced by a
librosa/numpy call on the waveform; here they are the abstract contents of
the dicts the five `extract_*` methods return. -/
structure RawFeatures where
  mfcc_mean : ℚ
  mfcc_std : ℚ
  mfcc_var : ℚ
  mfcc_max : ℚ
  mfcc_min : ℚ
  pitch_mean : ℚ
  pitch_std : ℚ
  pitch_variance : ℚ
  pitch_range : ℚ
  spectral_flatness_mean : ℚ
  spectral_flatness_std : ℚ
  spectral_centroid_mean : ℚ
  spectral_centroid_std : ℚ
  spectral_rolloff_mean : ℚ
  spectral_bandwidth_mean : ℚ
  rms_mean : ℚ
  rms_std : ℚ
  rms_variance : ℚ
  zcr_mean : ℚ
  zcr_std : ℚ
  energy_variation : ℚ
  audio_duration : ℚ

/-- Dict returned by `FeatureExtractor.extract_mfcc_features`. -/
def extract_mfcc_features (f : RawFeatures) : List (String × ℚ) :=
  [("mfcc_mean", f.mfcc_mean), ("mfcc_std", f.mfcc_std), ("mfcc_var", f.mfcc_var),
   ("mfcc_max", f.mfcc_max), ("mfcc_min", f.mfcc_min)]

/-- Dict returned by `FeatureExtractor.extract_pitch_features`. -/
def extract_pitch_features (f : RawFeatures) : List (String × ℚ) :=
  [("pitch_mean", f.pitch_mean), ("pitch_std", f.pitch_std),
   ("pitch_variance", f.pitch_variance), ("pitch_range", f.pitch_range)]

/-- Dict returned by `FeatureExtractor.extract_spectral_features`. -/
def extract_spectral_features (f : RawFeatures) : List (String × ℚ) :=
  [("spectral_flatness_mean", f.spectral_flatness_mean),
   ("spectral_flatness_std", f.spectral_flatness_std),
   ("spectral_centroid_mean", f.spectral_centroid_mean),
   ("spectral_centroid_std", f.spectral_centroid_std),
   ("spectral_rolloff_mean", f.spectral_rolloff_mean),
   ("spectral_bandwidth_mean", f.spectral_bandwidth_mean)]

/-- Dict returned by `FeatureExtractor.extract_energy_features`. -/
def extract_energy_features (f : RawFeatures) : List (String × ℚ) :=
  [("rms_mean", f.rms_mean), ("rms_std", f.rms_std), ("rms_variance", f.rms_variance),
   ("zcr_mean", f.zcr_mean), ("zcr_std", f.zcr_std)]

/-- Dict returned by `FeatureExtractor.extract_temporal_features`. -/
def extract_temporal_features (f : RawFeatures) : List (String × ℚ) :=
  [("energy_variation", f.energy_variation), ("audio_duration", f.audio_duration)]

/-- `FeatureExtractor.extract_all_features`: successive `dict.update` calls
over the five disjoint-keyed group dicts, i.e. their concatenation. -/
def extract_all_features (f : RawFeatures) : List (String × ℚ) :=
  extract_mfcc_features f ++ extract_pitch_features f ++ extract_spectral_features f ++
    extract_energy_features f ++ extract_temporal_features f

/-- The fixed `feature_order` list inside
`FeatureExtractor.get_feature_vector` (`backend/model/feature_extractor.py`). -/
def feature_order : List String :=
  ["mfcc_mean", "mfcc_std", "mfcc_var", "mfcc_max", "mfcc_min",
   "pitch_mean", "pitch_std", "pitch_variance", "pitch_range",
   "spectral_flatness_mean", "spectral_flatness_std",
   "spectral_centroid_mean", "spectral_centroid_std",
   "spectral_rolloff_mean", "spectral_bandwidth_mean",
   "rms_mean", "rms_std", "rms_variance",
   "zcr_mean", "zcr_std",
   "energy_variation", "audio_duration"]

/-- `FeatureExtractor.get_feature_vector`: `[features[key] for key in
feature_order]` (every key is present, so the lookup never falls back). -/
def get_feature_vector (f : RawFeatures) : List ℚ :=
  feature_order.map (fun key => ((extract_all_features f).lookup key).getD 0)

/-- The `feature_names` list inside `VoiceClassifier.get_feature_importance`
(`backend/model/classifier.py`), the order used at training time. -/
def classifier_feature_names : List String :=
  ["mfcc_mean", "mfcc_std", "mfcc_var", "mfcc_max", "mfcc_min",
   "pitch_mean", "pitch_std", "pitch_variance", "pitch_range",
   "spectral_flatness_mean", "spectral_flatness_std",
   "spectral_centroid_mean", "spectral_centroid_std",
   "spectral_rolloff_mean", "spectral_bandwidth_mean",
   "rms_mean", "rms_std", "rms_variance",
   "zcr_mean", "zcr_std",
   "energy_variation", "audio_duration"]

end FeatureExtractor

/-- C5: `get_feature_vector` returns exactly 22 scalars, its i-th entry is
the value `extract_all_features` assigns to the i-th name of the fixed
feature order (the vector spelled out field by field), that order is
identical to the 22-name training order of the classifier, and the
vector-to-dict round trip through the fixed feature order reproduces
`extract_all_features` exactly. -/
theorem FeatureExtractor.feature_vector_order :
    ∀ f : FeatureExtractor.RawFeatures,
      (FeatureExtractor.get_feature_vector f).length = 22 ∧
      FeatureExtractor.feature_order = FeatureExtractor.classifier_feature_names ∧
      FeatureExtractor.get_feature_vector f =
        [f.mfcc_mean, f.mfcc_std, f.mfcc_var, f.mfcc_max, f.mfcc_min,
         f.pitch_mean, f.pitch_std, f.pitch_variance, f.pitch_range,
         f.spectral_flatness_mean, f.spectral_flatness_std,
         f.spectral_centroid_mean, f.spectral_centroid_std,
         f.spectral_rolloff_mean, f.spectral_bandwidth_mean,
         f.rms_mean, f.rms_std, f.rms_variance,
         f.zcr_mean, f.zcr_std,
         f.energy_variation, f.audio_duration] ∧
      FeatureExtractor.feature_order.zip (FeatureExtractor.get_feature_vector f) =
        FeatureExtractor.extract_all_features f := by
  intro f
  exact ⟨rfl, rfl, rfl, rfl⟩

namespace Db

/-- `DatabaseManager.log_prediction` from `backend/utils/db.py`, over the
connection state (`self.collection`, `none` until `connect` succeeds) and the
outcome of the Mongo `insert_one` call (an inserted id, or the message of the
exception it raised).  The source returns the id string on success, `None`
when not connected, and `None` from the `except` block on failure — it never
re-raises. -/
def log_prediction (collection : Option Unit) (insertOutcome : Except String String) :
    Option String :=
  match collection with
  | none => none
  | some _ =>
    match insertOutcome with
    | .ok inserted_id => some inserted_id
    | .error _ => none

/-- The trend computation inside `DatabaseManager.get_user_stats`
(`backend/utils/db.py`): take the 10 most recent confidences
(timestamp-descending), and when at least 10 exist compare the average of the
first window of 5 against the average of the next window of 5 with a 0.05
margin. -/
def get_user_stats_trend (recent : List ℚ) : String :=
  let recent10 := recent.take 10
  if recent10.length ≥ 10 then
    let recent_avg := (recent10.take 5).sum / 5
    let previous_avg := ((recent10.drop 5).take 5).sum / 5
    if recent_avg > previous_avg + 1/20 then "Improving"
    else if recent_avg < previous_avg - 1/20 then "Declining"
    else "Stable"
  else "Stable"

end Db

namespace FirebaseDb

/-- The trend field of `FirebaseManager.get_user_stats`
(`backend/utils/firebase_db.py`): the returned dict hardcodes
trend "Stable" and performs no window comparison. -/
def get_user_stats_trend (_recent : List ℚ) : String := "Stable"

end FirebaseDb

/-- C9 counterexample: for ten records whose five most recent confidences are
1 and whose previous five are 0, the trend of the Mongo adapter is
"Improving" while the Firebase adapter reports "Stable" — the two do not
return the same trend value for the same records. -/
theorem Db.trend_adapters_disagree :
    Db.get_user_stats_trend [1, 1, 1, 1, 1, 0, 0, 0, 0, 0] = "Improving" ∧
    FirebaseDb.get_user_stats_trend [1, 1, 1, 1, 1, 0, 0, 0, 0, 0] = "Stable" ∧
    Db.get_user_stats_trend [1, 1, 1, 1, 1, 0, 0, 0, 0, 0] ≠
      FirebaseDb.get_user_stats_trend [1, 1, 1, 1, 1, 0, 0, 0, 0, 0] := by
  refine ⟨?_, rfl, ?_⟩
  · simp only [Db.get_user_stats_trend, List.take, List.drop, List.sum]
    norm_num
  · simp only [Db.get_user_stats_trend, FirebaseDb.get_user_stats_trend,
      List.take, List.drop, List.sum]
    norm_num
    decide

/-- C9 (amended): both adapters expose `get_user_stats` through the same
interface, but only the Mongo adapter computes the trend over the last 10
records by comparing two windows of 5; the Firebase adapter always reports
"Stable", so the two agree exactly when the Mongo windowed comparison yields
"Stable". -/
theorem Db.trend_adapters_amended :
    ∀ recent : List ℚ,
      FirebaseDb.get_user_stats_trend recent = "Stable" ∧
      (Db.get_user_stats_trend recent = FirebaseDb.get_user_stats_trend recent ↔
        Db.get_user_stats_trend recent = "Stable") := by
  intro recent
  exact ⟨rfl, Iff.rfl⟩

namespace MainApp

/-- Python `str.split(sep)` on a single-character separator, as a
structural recursion over the character list: split on every occurrence,
keeping empty chunks. -/
def splitChunks (sep : Char) (l : List Char) : List (List Char) :=
  l.foldr
    (fun c acc =>
      if c = sep then [] :: acc
      else
        match acc with
        | [] => [[c]]
        | h :: t => (c :: h) :: t)
    [[]]

/-- Python `authorization.split(" ")`. -/
def pySplitSpace (s : String) : List String :=
  (splitChunks ' ' s.data).map String.mk

/-- Python `s.startswith(p)`. -/
def pyStartsWith (s p : String) : Bool := p.data.isPrefixOf s.data

/-- A user document as read back from the database by `backend/main.py`
(`_id` already converted to a string). -/
structure User where
  id : String
  email : String
  api_key : String
  password_hash : String
deriving DecidableEq

/-- The collaborators of the `detect_voice` authentication phase
(`backend/main.py`): the JWT decoder (`auth_manager.decode_access_token`,
yielding the optional `sub` claim of the payload when the token verifies), the
database lookups, and the process-wide `API_KEY` environment secret. -/
structure AuthEnv where
  decode_access_token : String → Option (Option String)
  get_user_by_email : String → Option User
  get_user_by_api_key : String → Option User
  API_KEY : String

/-- The authentication phase of `detect_voice` (`backend/main.py`, the
JWT-versus-api-key ladder).  `authorization` models the `Authorization`
header and `api_key` the separate `api-key` header, each `none` when absent;
Python truthiness makes an empty header value count as absent.  The result is
either `(status, error code handed to create_error_response)` or the
authenticated `(user_email, user_id)` pair ("anonymous" with no id for the
process-wide key). -/
def detect_voice_auth (env : AuthEnv) (authorization : Option String)
    (api_key : Option String) : Except (ℕ × String) (String × Option String) :=
  if pyStartsWith (authorization.getD "") "Bearer " then
    let token := ((pySplitSpace (authorization.getD "")).get? 1).getD ""
    match env.decode_access_token token with
    | none => .error (401, "INVALID_TOKEN")
    | some sub =>
      match sub with
      | none => .error (401, "INVALID_TOKEN")
      | some user_email =>
        if user_email = "" then .error (401, "INVALID_TOKEN")
        else
          match env.get_user_by_email user_email with
          | none => .error (404, "USER_NOT_FOUND")
          | some user => .ok (user_email, some user.id)
  else
    match api_key with
    | some k =>
      if k = "" then .error (401, "AUTHENTICATION_REQUIRED")
      else if k ≠ env.API_KEY then
        match env.get_user_by_api_key k with
        | none => .error (401, "INVALID_API_KEY")
        | some user => .ok (user.email, some user.id)
      else .ok ("anonymous", none)
    | none => .error (401, "AUTHENTICATION_REQUIRED")

/-- Python `round(x, 2)` idealised over ℚ: round half to even at two
decimal places (the source applies it to the confidence float before
building the response). -/
def pyRound2 (c : ℚ) : ℚ :=
  let x := c * 100
  let f := ⌊x⌋
  (if x - f = 1/2 then (if 2 ∣ f then f else f + 1) else round x : ℤ) / 100

/-- The tail of the `detect_voice` success path (`backend/main.py` steps 5-6):
log the prediction, then build the response from prediction, rounded
confidence and explanation.  The value returned by
`db_manager.log_prediction` is discarded by the source. -/
def detect_success_response (prediction : String) (confidence : ℚ)
    (explanation : List (String × String)) (collection : Option Unit)
    (insertOutcome : Except String String) : String × ℚ × List (String × String) :=
  let _logged := Db.log_prediction collection insertOutcome
  (prediction, pyRound2 confidence, explanation)

/-- The collaborators of the `login_user` route (`backend/main.py`): the
database lookup, `auth_manager.verify_password` and
`auth_manager.create_access_token`. -/
structure LoginEnv where
  get_user_by_email : String → Option User
  verify_password : String → String → Bool
  create_access_token : String → String

/-- `login_user` from `backend/main.py`: unknown email and wrong password
both raise HTTP 401 with the `INVALID_CREDENTIALS` error body; success
returns `(access_token, user_email, api_key)`. -/
def login_user (env : LoginEnv) (email password : String) :
    Except (ℕ × String) (String × String × String) :=
  match env.get_user_by_email email with
  | none => .error (401, "INVALID_CREDENTIALS")
  | some user =>
    if ¬ env.verify_password password user.password_hash then
      .error (401, "INVALID_CREDENTIALS")
    else
      .ok (env.create_access_token user.email, user.email, user.api_key)

end MainApp

/-- A concrete registered user for instantiating the route theorems. -/
def MainApp.demoUser : MainApp.User :=
  ⟨"id1", "u@example.com", "user-key-1", "h"⟩

/-- A concrete authentication environment: the JWT decoder accepts exactly
the token "tok" (and in particular rejects an API key presented as a JWT),
the database holds `demoUser`, and the process-wide secret is "env-secret". -/
def MainApp.authEnvDemo : MainApp.AuthEnv where
  decode_access_token := fun t => if t = "tok" then some (some "u@example.com") else none
  get_user_by_email := fun e => if e = "u@example.com" then some MainApp.demoUser else none
  get_user_by_api_key := fun k => if k = "user-key-1" then some MainApp.demoUser else none
  API_KEY := "env-secret"

/-- C2 counterexample: a valid user API key presented as
`Authorization: Bearer <api_key>` is rejected with `INVALID_TOKEN` (the
Bearer branch only ever tries JWT decoding), even though the same key in the
separate `api-key` header authenticates; and the body built for the
missing-credentials rejection carries error code "UNKNOWN_ERROR" because
"AUTHENTICATION_REQUIRED" is absent from the `ERROR_MESSAGES` registry. -/
theorem MainApp.bearer_api_key_rejected :
    MainApp.detect_voice_auth MainApp.authEnvDemo (some "Bearer user-key-1") none =
      .error (401, "INVALID_TOKEN") ∧
    MainApp.detect_voice_auth MainApp.authEnvDemo none (some "user-key-1") =
      .ok ("u@example.com", some "id1") ∧
    (Errors.create_error_response "AUTHENTICATION_REQUIRED" none).error = "UNKNOWN_ERROR" := by
  refine ⟨?_, ?_, ?_⟩ <;> rfl

/-- C2 (amended): on the detection endpoint a bearer JWT in the
`Authorization` header and an API key in the separate `api-key` header are
both accepted; a Bearer `Authorization` value takes priority and the
`api-key` header is then ignored; a request presenting neither is rejected
with HTTP 401 built from code `AUTHENTICATION_REQUIRED`, whose response body
carries error code `UNKNOWN_ERROR` since that code is not in the registry. -/
theorem MainApp.detect_voice_auth_amended :
    ∀ env : MainApp.AuthEnv,
      (MainApp.detect_voice_auth env none none =
        .error (401, "AUTHENTICATION_REQUIRED")) ∧
      (Errors.create_error_response "AUTHENTICATION_REQUIRED" none =
        ⟨"UNKNOWN_ERROR", "An unexpected error occurred", none⟩) ∧
      (∀ (s : String) (k1 k2 : Option String), MainApp.pyStartsWith s "Bearer " = true →
        MainApp.detect_voice_auth env (some s) k1 =
          MainApp.detect_voice_auth env (some s) k2) ∧
      (∀ (s : String) (u : MainApp.User), MainApp.pyStartsWith s "Bearer " = true →
        env.decode_access_token ((MainApp.pySplitSpace s)[1]?.getD "") =
          some (some u.email) →
        u.email ≠ "" →
        env.get_user_by_email u.email = some u →
        MainApp.detect_voice_auth env (some s) none = .ok (u.email, some u.id)) ∧
      (env.API_KEY ≠ "" →
        MainApp.detect_voice_auth env none (some env.API_KEY) = .ok ("anonymous", none)) ∧
      (∀ (k : String) (u : MainApp.User), k ≠ "" → k ≠ env.API_KEY →
        env.get_user_by_api_key k = some u →
        MainApp.detect_voice_auth env none (some k) = .ok (u.email, some u.id)) := by
  intro env
  have hempty : MainApp.pyStartsWith "" "Bearer " = false := rfl
  refine ⟨rfl, rfl, fun s k1 k2 h => ?_, fun s u h1 h2 h3 h4 => ?_,
    fun hk => ?_, fun k u h1 h2 h3 => ?_⟩
  · simp [MainApp.detect_voice_auth, h]
  · simp [MainApp.detect_voice_auth, h1, h2, h3, h4]
  · simp [MainApp.detect_voice_auth, hempty, hk]
  · simp [MainApp.detect_voice_auth, hempty, h1, h2, h3]

/-- C2 witness: the amended-claim theorem applied to the demo environment,
discharging the Bearer-priority, JWT-acceptance and api-key-acceptance
hypotheses at concrete requests. -/
theorem MainApp.detect_voice_auth_amended_witness :
    (MainApp.detect_voice_auth MainApp.authEnvDemo (some "Bearer tok") (some "ignored") =
      MainApp.detect_voice_auth MainApp.authEnvDemo (some "Bearer tok") none) ∧
    (MainApp.detect_voice_auth MainApp.authEnvDemo (some "Bearer tok") none =
      .ok ("u@example.com", some "id1")) ∧
    (MainApp.detect_voice_auth MainApp.authEnvDemo none (some "env-secret") =
      .ok ("anonymous", none)) ∧
    (MainApp.detect_voice_auth MainApp.authEnvDemo none (some "user-key-1") =
      .ok ("u@example.com", some "id1")) :=
  ⟨(MainApp.detect_voice_auth_amended MainApp.authEnvDemo).2.2.1
      "Bearer tok" (some "ignored") none rfl,
   (MainApp.detect_voice_auth_amended MainApp.authEnvDemo).2.2.2.1
      "Bearer tok" MainApp.demoUser rfl rfl (by decide) rfl,
   (MainApp.detect_voice_auth_amended MainApp.authEnvDemo).2.2.2.2.1 (by decide),
   (MainApp.detect_voice_auth_amended MainApp.authEnvDemo).2.2.2.2.2
      "user-key-1" MainApp.demoUser (by decide) (by decide) rfl⟩

/-- C6: `log_prediction` returns `None` instead of raising when the database
is not connected or the insert fails, and the `detect_voice` success response
is the same whatever the persistence outcome — persistence failures never
propagate to the caller. -/
theorem Db.log_prediction_never_raises :
    (∀ ins : Except String String, Db.log_prediction none ins = none) ∧
    (∀ msg : String, Db.log_prediction (some ()) (.error msg) = none) ∧
    (∀ idStr : String, Db.log_prediction (some ()) (.ok idStr) = some idStr) ∧
    (∀ (pred : String) (conf : ℚ) (expl : List (String × String))
        (s1 s2 : Option Unit) (o1 o2 : Except String String),
      MainApp.detect_success_response pred conf expl s1 o1 =
        MainApp.detect_success_response pred conf expl s2 o2) :=
  ⟨fun _ => rfl, fun _ => rfl, fun _ => rfl, fun _ _ _ _ _ _ _ => rfl⟩

/-- A concrete login environment: one user, `demoUser`, whose password is
"correct-pw". -/
def MainApp.loginEnvDemo : MainApp.LoginEnv where
  get_user_by_email := fun e => if e = "u@example.com" then some MainApp.demoUser else none
  verify_password := fun password _hash => password == "correct-pw"
  create_access_token := fun email => "jwt-for-" ++ email

/-- C7: `login_user` answers both an unknown email and a known email with a
wrong password by the identical HTTP 401 `INVALID_CREDENTIALS` error, so the
response never leaks whether the email exists; the registry maps
`INVALID_CREDENTIALS` to the fixed "Invalid email or password" body. -/
theorem MainApp.login_never_leaks_email_existence :
    ∀ (env : MainApp.LoginEnv) (email1 email2 pw1 pw2 : String) (u : MainApp.User),
      (env.get_user_by_email email1 = none →
        MainApp.login_user env email1 pw1 = .error (401, "INVALID_CREDENTIALS")) ∧
      (env.get_user_by_email email2 = some u →
        env.verify_password pw2 u.password_hash = false →
        MainApp.login_user env email2 pw2 = .error (401, "INVALID_CREDENTIALS")) ∧
      (env.get_user_by_email email1 = none →
        env.get_user_by_email email2 = some u →
        env.verify_password pw2 u.password_hash = false →
        MainApp.login_user env email1 pw1 = MainApp.login_user env email2 pw2) ∧
      Errors.create_error_response "INVALID_CREDENTIALS" none =
        ⟨"INVALID_CREDENTIALS", "Invalid email or password", none⟩ := by
  intro env email1 email2 pw1 pw2 u
  refine ⟨fun h => ?_, fun h hv => ?_, fun h1 h2 hv => ?_, rfl⟩
  · simp [MainApp.login_user, h]
  · simp [MainApp.login_user, h, hv]
  · simp [MainApp.login_user, h1, h2, hv]

/-- C7 witness: in the demo environment, the unknown email
`nobody@example.com` and the registered `u@example.com` with a wrong
password produce the identical 401 `INVALID_CREDENTIALS` error. -/
theorem MainApp.login_never_leaks_email_existence_witness :
    (MainApp.login_user MainApp.loginEnvDemo "nobody@example.com" "bad-pw" =
      .error (401, "INVALID_CREDENTIALS")) ∧
    (MainApp.login_user MainApp.loginEnvDemo "u@example.com" "bad-pw" =
      .error (401, "INVALID_CREDENTIALS")) ∧
    (MainApp.login_user MainApp.loginEnvDemo "nobody@example.com" "bad-pw" =
      MainApp.login_user MainApp.loginEnvDemo "u@example.com" "bad-pw") :=
  ⟨(MainApp.login_never_leaks_email_existence MainApp.loginEnvDemo
      "nobody@example.com" "u@example.com" "bad-pw" "bad-pw" MainApp.demoUser).1 (by decide),
   (MainApp.login_never_leaks_email_existence MainApp.loginEnvDemo
      "nobody@example.com" "u@example.com" "bad-pw" "bad-pw" MainApp.demoUser).2.1
      rfl (by decide),
   (MainApp.login_never_leaks_email_existence MainApp.loginEnvDemo
      "nobody@example.com" "u@example.com" "bad-pw" "bad-pw" MainApp.demoUser).2.2.1
      (by decide) rfl (by decide)⟩
